import Mathlib

/-!
Verification of the Student Registry demo script
(`src/lib/sqlalchemy_sandbox.py`).

The script operates on a single in-memory table of `Student` rows through
one session.  We embed the table state as a `List Student` and each library
call the script issues as a pure function on that state, following the
source line by line: seeding two rows in bulk, the read-only queries
(full scan, projection, orderings, limit/first, aggregate count, predicate
filter), the two grade-update strategies, and the two delete strategies.
-/

/-- A calendar date, standing in for the `DateTime` values the script
stores in `birthday` (the script only ever supplies year/month/day). -/
structure DateT where
  year : Nat
  month : Nat
  day : Nat
deriving DecidableEq

/-- Chronological order on dates (year, then month, then day), the order
`order_by(Student.birthday)` sorts by. -/
def DateT.beforeB (a b : DateT) : Bool :=
  Nat.blt a.year b.year ||
    (Nat.beq a.year b.year &&
      (Nat.blt a.month b.month ||
        (Nat.beq a.month b.month && Nat.blt a.day b.day)))

/-- A row of the `students` table, mirroring the mapped columns of the
`Student` model: `id` (integer primary key), `name` (text), `email`
(text, declared `String(55)`), `grade` (integer), `birthday` (datetime),
`enrolled_date` (datetime, filled from the schema-level default).
`enrolled_date` is an abstract timestamp (`Nat`). -/
structure Student where
  id : Nat
  name : String
  email : String
  grade : Int
  birthday : DateT
  enrolledDate : Nat
deriving DecidableEq

/-- Declared length bound of the `email` column: `Column(String(55))`. -/
def studentEmailMaxLen : Nat := 55

/-- The schema-level acceptance test induced by `Column(String(55))`:
an email value fits the declared column type iff its length is at most
the declared bound. -/
def schemaAccepts (s : Student) : Bool :=
  Nat.ble s.email.length studentEmailMaxLen

/-- The `default=datetime.now()` argument on `enrolled_date` is evaluated
once, when the class body runs (schema load); the captured value is the
single default used for every subsequent insert. -/
def enrolledDefault (schemaLoadTime : Nat) : Nat := schemaLoadTime

/-- Build a `Student` row the way an insert does: every column comes from
the caller except `enrolled_date`, which is filled from the one default
value captured at schema load. -/
def mkStudent (schemaLoadTime : Nat) (id : Nat) (name email : String)
    (grade : Int) (birthday : DateT) : Student :=
  ⟨id, name, email, grade, birthday, enrolledDefault schemaLoadTime⟩

/-- The two seed rows inserted by `session.bulk_save_objects`, with the
store-assigned ids 1 and 2 (insertion order). -/
def seedRows (t : Nat) : List Student :=
  [ mkStudent t 1 "Albert Einstein" "albert.einstein@zurich.edu" 6 ⟨1879, 3, 14⟩,
    mkStudent t 2 "Alan Turing" "alan.turing@sherborne.edu" 11 ⟨1912, 6, 23⟩ ]

/-- `session.query(Student).all()`: the full scan returns every row in the
store's natural order. -/
def queryAll (rows : List Student) : List Student := rows

/-- `session.query(Student.name).all()`: project the `name` column. -/
def selectNames (rows : List Student) : List String :=
  rows.map (fun s => s.name)

/-- Insert `x` into an already sorted list: `x` goes in front of the first
element that is not strictly before it, so rows with equal keys keep their
original (natural) order. -/
def insertBy (lt : α → α → Bool) (x : α) : List α → List α
  | [] => [x]
  | y :: ys => if lt y x then y :: insertBy lt x ys else x :: y :: ys

/-- Stable sort by the strict comparison `lt`, modelling `order_by`. -/
def sortBy (lt : α → α → Bool) : List α → List α
  | [] => []
  | x :: xs => insertBy lt x (sortBy lt xs)

/-- `order_by(Student.name)`: names ascending. -/
def orderByNameAsc (rows : List Student) : List String :=
  sortBy (fun a b => decide (a < b)) (selectNames rows)

/-- `query(Student.name, Student.grade).order_by(desc(Student.grade))`:
`(name, grade)` pairs, grade descending. -/
def orderByGradeDesc (rows : List Student) : List (String × Int) :=
  (sortBy (fun a b => decide (b.grade < a.grade)) rows).map
    (fun s => (s.name, s.grade))

/-- `query(Student.name, Student.birthday).order_by(Student.birthday)`:
`(name, birthday)` pairs, birthday ascending. -/
def orderByBirthdayAsc (rows : List Student) : List (String × DateT) :=
  (sortBy (fun a b => DateT.beforeB a.birthday b.birthday) rows).map
    (fun s => (s.name, s.birthday))

/-- The earliest-birthday query bounded with `.limit(1).all()`. -/
def oldestLimit (rows : List Student) : List (String × DateT) :=
  (orderByBirthdayAsc rows).take 1

/-- The earliest-birthday query resolved with `.first()`. -/
def oldestFirstQ (rows : List Student) : Option (String × DateT) :=
  (orderByBirthdayAsc rows).head?

/-- `session.query(func.count(Student.id)).first()`: the store-side count
aggregate over the `id` column (`id` is the non-nullable primary key, so
every row is counted). -/
def funcCountStudentId (rows : List Student) : Nat :=
  (rows.map (fun s => s.id)).length

/-- Does `needle` occur at the start of `hay`? -/
def charsStart : List Char → List Char → Bool
  | [], _ => true
  | _ :: _, [] => false
  | a :: as, b :: bs => a == b && charsStart as bs

/-- Does `needle` occur contiguously anywhere in `hay`? -/
def hasSub (needle : List Char) : List Char → Bool
  | [] => charsStart needle []
  | b :: bs => charsStart needle (b :: bs) || hasSub needle bs

/-- `Student.name.like('%Alan%')`: a partial text match, true when the
pattern body occurs as a contiguous substring of the value. -/
def likeContains (pat s : String) : Bool :=
  hasSub pat.toList s.toList

/-- `session.query(Student).filter(Student.name.like('%Alan%'),
Student.grade == 11).all()`: the two filter arguments are ANDed. -/
def filterAlan11 (rows : List Student) : List Student :=
  rows.filter (fun s => likeContains "Alan" s.name && decide (s.grade = 11))

/-- Update strategy 1: iterate over every loaded `Student`, increment its
`grade` in memory, then commit once — every row ends up incremented. -/
def perRowUpdate (rows : List Student) : List Student :=
  rows.map (fun s => { s with grade := s.grade + 1 })

/-- The bulk `update()` statement: increment `grade` by 1 on every row
matching the predicate `p`, without materialising row objects. -/
def bulkUpdateGrade (p : Student → Bool) (rows : List Student) : List Student :=
  rows.map (fun s => if p s then { s with grade := s.grade + 1 } else s)

/-- Update strategy 2 as the script issues it:
`session.query(Student).update({Student.grade: Student.grade + 1})` — no
filter, so the predicate matches every row. -/
def bulkUpdateAll (rows : List Student) : List Student :=
  bulkUpdateGrade (fun _ => true) rows

/-- `session.query(Student).filter(Student.name == n)`. -/
def filterByName (n : String) (rows : List Student) : List Student :=
  rows.filter (fun s => s.name == n)

/-- `.first()` on a query: the first matching row, if any. -/
def queryFirst (rows : List Student) : Option Student := rows.head?

/-- `session.delete(obj)` followed by `commit`: deleting a resolved row
removes the row with that primary key; passing the absent object obtained
from an empty match (`None`) is an error (`UnmappedInstanceError`), not a
no-op. -/
def sessionDelete : Option Student → List Student → Except String (List Student)
  | none, _ => Except.error "UnmappedInstanceError"
  | some s, rows => Except.ok (rows.filter (fun r => !(r.id == s.id)))

/-- `query.delete()`: one statement deleting every row matching the
predicate; matching zero rows leaves the state unchanged and is total. -/
def bulkDeleteWhere (p : Student → Bool) (rows : List Student) : List Student :=
  rows.filter (fun s => !(p s))

/-! The states the script steps through, in program order. -/

/-- Table state after seeding (`bulk_save_objects` + `commit`). -/
def stSeed (t : Nat) : List Student := seedRows t

/-- State after update strategy 1 (per-row mutation + commit). -/
def stAfterPerRow (t : Nat) : List Student := perRowUpdate (stSeed t)

/-- State after update strategy 2 (bulk `update()`). -/
def stAfterBulk (t : Nat) : List Student := bulkUpdateAll (stAfterPerRow t)

/-- The predicate query used by both delete strategies:
`filter(Student.name == "Albert Einstein")`. -/
def einsteinQuery (rows : List Student) : List Student :=
  filterByName "Albert Einstein" rows

/-- Outcome of delete strategy 1: resolve the predicate with `.first()`,
then `session.delete` the resolved object. -/
def objDeleteResult (t : Nat) : Except String (List Student) :=
  sessionDelete (queryFirst (einsteinQuery (stAfterBulk t))) (stAfterBulk t)

/-- State after delete strategy 1 (the script continues only on success). -/
def stAfterObjDelete (t : Nat) : List Student :=
  match objDeleteResult t with
  | Except.ok r => r
  | Except.error _ => stAfterBulk t

/-- State after delete strategy 2: the bulk `query.delete()` on the same
predicate. -/
def stAfterBulkDelete (t : Nat) : List Student :=
  bulkDeleteWhere (fun s => s.name == "Albert Einstein") (stAfterObjDelete t)

/-- Every table state the script ever stores rows in, concatenated. -/
def allScriptStates (t : Nat) : List Student :=
  stSeed t ++ stAfterPerRow t ++ stAfterBulk t ++
    stAfterObjDelete t ++ stAfterBulkDelete t

/-! Helper lemmas. -/

/-- If filtering by `p` returns no row, filtering by the negation of `p`
returns the whole list. -/
theorem filter_not_of_filter_eq_nil {α : Type} (p : α → Bool) :
    ∀ rows : List α, rows.filter p = [] →
      rows.filter (fun s => !(p s)) = rows := by
  intro rows
  induction rows with
  | nil => intro _; rfl
  | cons x xs ih =>
      intro h
      rw [List.filter_cons] at h
      cases hp : p x with
      | true =>
          rw [hp] at h
          simp only [if_pos] at h
          exact absurd h (List.cons_ne_nil _ _)
      | false =>
          rw [hp] at h
          simp only [Bool.false_eq_true, if_false] at h
          rw [List.filter_cons]
          simp only [hp, Bool.not_false, if_pos]
          rw [ih h]

/-! Claim theorems. -/

/-- C1: applying the per-row mutation strategy (load every Student,
increment grade, commit) and then the bulk predicate update (one statement
incrementing grade on all rows) to the two seed rows with grades 6 and 11
yields final grades 8 for Albert Einstein and 13 for Alan Turing. -/
theorem c1_update_sequence_final_grades (t : Nat) :
    (stAfterBulk t).map (fun s => (s.name, s.grade))
      = [("Albert Einstein", 8), ("Alan Turing", 13)] := by
  rfl

/-- C2: on every starting table state, the per-row mutation strategy and
the bulk predicate update produce identical final table states. -/
theorem c2_update_strategies_agree (rows : List Student) :
    perRowUpdate rows = bulkUpdateAll rows := by
  simp [perRowUpdate, bulkUpdateAll, bulkUpdateGrade]

/-- C3: the earliest-birthday query on the seed rows returns the Albert
Einstein row (birthday 1879-03-14) through both access patterns —
`.limit(1).all()` and `.first()` — and both return the identical row. -/
theorem c3_oldest_student_both_accessors (t : Nat) :
    oldestLimit (seedRows t) = [("Albert Einstein", ⟨1879, 3, 14⟩)] ∧
    oldestFirstQ (seedRows t) = some ("Albert Einstein", ⟨1879, 3, 14⟩) ∧
    (oldestLimit (seedRows t)).head? = oldestFirstQ (seedRows t) := by
  exact ⟨rfl, rfl, rfl⟩

/-- C4: filtering the seed rows by the two ANDed conditions — name
contains "Alan" and grade equals 11 — returns exactly one row,
Alan Turing. -/
theorem c4_filter_alan_grade11 (t : Nat) :
    (filterAlan11 (seedRows t)).map (fun s => s.name) = ["Alan Turing"] ∧
    (filterAlan11 (seedRows t)).length = 1 := by
  exact ⟨rfl, rfl⟩

/-- C5: after seeding the two records the full scan returns 2 rows and the
count aggregate returns 2; moreover, on every table state the count
aggregate agrees with the number of rows the full scan would fetch, so
counting store-side loses nothing against counting client-side. -/
theorem c5_counts (t : Nat) :
    (queryAll (seedRows t)).length = 2 ∧
    funcCountStudentId (seedRows t) = 2 ∧
    ∀ rows : List Student, funcCountStudentId rows = (queryAll rows).length := by
  refine ⟨rfl, rfl, ?_⟩
  intro rows
  simp [funcCountStudentId, queryAll]

/-- C6: the descending-grade query on the seed rows (grades 6 and 11)
returns the `(name, grade)` pairs sorted by grade descending:
`[("Alan Turing", 11), ("Albert Einstein", 6)]`. -/
theorem c6_grade_desc_order (t : Nat) :
    orderByGradeDesc (seedRows t)
      = [("Alan Turing", 11), ("Albert Einstein", 6)] := by
  rfl

/-- C7: the object-level delete of the "Albert Einstein" row succeeds;
re-evaluating the same predicate query afterwards returns no row; and the
subsequent bulk predicate delete on the same predicate matches zero rows
and is a no-op (it is a total operation, so it cannot error). -/
theorem c7_delete_then_requery_then_bulk_noop (t : Nat) :
    objDeleteResult t = Except.ok (stAfterObjDelete t) ∧
    queryFirst (einsteinQuery (stAfterObjDelete t)) = none ∧
    stAfterBulkDelete t = stAfterObjDelete t := by
  exact ⟨rfl, rfl, rfl⟩

/-- C8: the `enrolled_date` default is captured once at schema load and is
not re-evaluated per insert, so both seed rows carry that same captured
timestamp. -/
theorem c8_enrolled_date_shared_default (t : Nat) :
    (seedRows t).map (fun s => s.enrolledDate)
      = [enrolledDefault t, enrolledDefault t] := by
  rfl

/-- C9: the schema declares `email` as bounded-length text with maximum 55
characters, and every `Student` row stored in any table state of the
script satisfies that declared bound. -/
theorem c9_email_bound (t : Nat) :
    studentEmailMaxLen = 55 ∧
    (allScriptStates t).all schemaAccepts = true := by
  exact ⟨rfl, rfl⟩

/-- C10: when the predicate query matches no row, the first-match accessor
resolves to no object and passing that absent object to the session's
delete errors rather than being a no-op, while the bulk predicate delete
on the same empty match set is a safe no-op; so the script's object delete
requires at least one matching row. -/
theorem c10_object_delete_empty_match_errors (rows : List Student)
    (h : einsteinQuery rows = []) :
    queryFirst (einsteinQuery rows) = none ∧
    sessionDelete (queryFirst (einsteinQuery rows)) rows
      = Except.error "UnmappedInstanceError" ∧
    bulkDeleteWhere (fun s => s.name == "Albert Einstein") rows = rows := by
  have hnone : queryFirst (einsteinQuery rows) = none := by
    rw [h]; rfl
  refine ⟨hnone, ?_, ?_⟩
  · rw [hnone]; rfl
  · exact filter_not_of_filter_eq_nil _ rows h

/-- Witness for C10: the state left by the script's object-level delete
(only the Alan Turing row remains) matches the predicate on no row, and
there the accessor, the erroring delete, and the no-op bulk delete behave
as stated. -/
theorem c10_witness :
    einsteinQuery (stAfterObjDelete 0) = [] ∧
    (queryFirst (einsteinQuery (stAfterObjDelete 0)) = none ∧
     sessionDelete (queryFirst (einsteinQuery (stAfterObjDelete 0)))
        (stAfterObjDelete 0) = Except.error "UnmappedInstanceError" ∧
     bulkDeleteWhere (fun s => s.name == "Albert Einstein")
        (stAfterObjDelete 0) = stAfterObjDelete 0) :=
  ⟨rfl, c10_object_delete_empty_match_errors (stAfterObjDelete 0) rfl⟩
